import Mathlib

/-
Shallow embedding of the ScholarAI pipe adapter (scholarai.py): the JSON-ish
data model, the request builder (model rewrite and payload construction), the
streaming response normalizer, and the pipe operation with the upstream HTTP
exchange abstracted as a parameter.
-/

namespace ScholarAI

/-- JSON-like values exchanged with the host framework and the upstream API. -/
inductive JVal where
  | null
  | bool (b : Bool)
  | num (n : Int)
  | str (s : String)
  | arr (elems : List JVal)
  | obj (fields : List (String × JVal))

/-- A Python dict with string keys, as an ordered association list. -/
abbrev Dict := List (String × JVal)

/-- Python dict lookup: the first binding of the key, if any. -/
def dlookup : Dict → String → Option JVal
  | [], _ => none
  | (k, v) :: d, q => if k = q then some v else dlookup d q

/-- Python dict.get with a default value. -/
def dget (d : Dict) (k : String) (dflt : JVal) : JVal :=
  match dlookup d k with
  | some v => v
  | none => dflt

/-- Key membership test for a dict. -/
def keyMem (d : Dict) (k : String) : Bool :=
  d.any (fun q => decide (q.1 = k))

/-- Python dict-union update: the dict with key k bound to v, keeping the
position of an existing binding and appending a fresh binding at the end
otherwise (the semantics of merging a dict with a one-key dict). -/
def setKey (d : Dict) (k : String) (v : JVal) : Dict :=
  if keyMem d k then d.map (fun q => (q.1, if q.1 = k then v else q.2))
  else d ++ [(k, v)]

/-- Python truthiness of a JSON value, as used by an if statement. -/
def jTruthy : JVal → Bool
  | JVal.null => false
  | JVal.bool b => b
  | JVal.num n => n != 0
  | JVal.str s => !s.isEmpty
  | JVal.arr es => !es.isEmpty
  | JVal.obj fs => !fs.isEmpty

/-- Python test (not line.strip()): it holds exactly when every character of
the line is whitespace, so the line is empty or whitespace-only. -/
def blank (s : String) : Bool := s.data.all Char.isWhitespace

/-- Python str.startswith: the argument is a prefix of the string. -/
def startswith (s marker : String) : Bool := marker.data.isPrefixOf s.data

/-- Per-line step of the normalizer (scholarai.py line 188): a line already
starting with the marker is kept, otherwise the marker is prepended. -/
def procLine (l : String) : String :=
  if startswith l "data:" then l else "data: " ++ l

/-- The streaming response normalizer (scholarai.py lines 185-189): drop
blank lines, apply the per-line step to the rest, then emit the sentinel. -/
def add_prefix : List String → List String
  | [] => ["data: [DONE]"]
  | l :: ls => if blank l then add_prefix ls else procLine l :: add_prefix ls

/-- The lines the normalizer has emitted when the input sequence stops with an
exception instead of being exhausted: no sentinel is appended. -/
def prefixLines : List String → List String
  | [] => []
  | l :: ls => if blank l then prefixLines ls else procLine l :: prefixLines ls

/-- Index of the first occurrence of a character in a list, if any. -/
def findCharIdx : List Char → Char → Option Nat
  | [], _ => none
  | a :: as, c => if a = c then some 0 else (findCharIdx as c).map (fun i => i + 1)

/-- Python str.find for a single-character needle: the index of its first
occurrence, or -1 when absent. -/
def pyFind (s : String) (c : Char) : Int :=
  match findCharIdx s.data c with
  | some i => (i : Int)
  | none => -1

/-- scholarai.py line 138: the model field sliced from one past the first dot,
which is the whole string when no dot occurs since find returns -1. -/
def rewriteModel (s : String) : String :=
  String.mk (s.data.drop (pyFind s '.' + 1).toNat)

/-- scholarai.py line 139: the outbound payload is the body with its model
field overwritten by the rewritten model id. -/
def buildPayload (body : Dict) (m : String) : Dict :=
  setKey body "model" (JVal.str (rewriteModel m))

/-- The adapter configuration (the Valves model of scholarai.py). -/
structure Valves where
  API_KEY : String
  BASE_URL : String
  STREAM : Bool
  DEBUG : Bool

/-- One item yielded by the pipe generator: a text line or a JSON value. -/
inductive OutItem where
  | line (s : String)
  | json (v : JVal)

/-- Python exceptions the pipe body can raise past its except clause. -/
inductive PyExc where
  | keyError (key : String)
  | attributeError
  | httpStatusError (code : Nat)

/-- Observable behaviour of one pipe invocation: either the generator runs to
completion having yielded the listed items, or it yields some items and then
raises an uncaught exception. -/
inductive PipeResult where
  | yields (items : List OutItem)
  | raises (items : List OutItem) (e : PyExc)

/-- Behaviour of the upstream streaming call: a transport error when opening
the stream (an httpx.RequestError), or a response with a status code, the
body lines, and optionally a transport error raised mid-stream after them. -/
inductive StreamOutcome where
  | reqError (msg : String)
  | resp (status : Nat) (lines : List String) (tl : Option String)

/-- Behaviour of the upstream buffered post call: a transport error or a
response with a status code and a decoded JSON body. -/
inductive PostOutcome where
  | reqError (msg : String)
  | resp (status : Nat) (body : JVal)

/-- The upstream HTTP exchange, abstracted: what the server does for a given
outbound payload, in each transport mode. -/
structure Upstream where
  stream : Dict → StreamOutcome
  post : Dict → PostOutcome

/-- httpx is_success: raise_for_status raises exactly when this is false. -/
def statusSuccess (code : Nat) : Bool := decide (200 ≤ code ∧ code < 300)

/-- The pipe operation (scholarai.py lines 109-168). The stream flag is read
with the configured default, the model field is fetched (KeyError when absent,
AttributeError when not a string), the payload is built, and the upstream
exchange runs. raise_for_status raises httpx.HTTPStatusError on a non-2xx
status; only httpx.RequestError is caught and turned into an Error item, so a
status error escapes the generator uncaught. -/
def pipe (valves : Valves) (body : Dict) (user : Dict) (up : Upstream) : PipeResult :=
  let streamFlag := jTruthy (dget body "stream" (JVal.bool valves.STREAM))
  match dlookup body "model" with
  | none => PipeResult.raises [] (PyExc.keyError "model")
  | some (JVal.str m) =>
    let payload := buildPayload body m
    if streamFlag then
      match up.stream payload with
      | StreamOutcome.reqError msg => PipeResult.yields [OutItem.line ("Error: " ++ msg)]
      | StreamOutcome.resp code lines tl =>
        if statusSuccess code then
          match tl with
          | none => PipeResult.yields (( add_prefix lines).map OutItem.line)
          | some msg =>
            PipeResult.yields
              ((prefixLines lines).map OutItem.line ++ [OutItem.line ("Error: " ++ msg)])
        else PipeResult.raises [] (PyExc.httpStatusError code)
    else
      match up.post payload with
      | PostOutcome.reqError msg => PipeResult.yields [OutItem.line ("Error: " ++ msg)]
      | PostOutcome.resp code respBody =>
        if statusSuccess code then PipeResult.yields [OutItem.json respBody]
        else PipeResult.raises [] (PyExc.httpStatusError code)
  | some _ => PipeResult.raises [] PyExc.attributeError

/-- Recognizer for the behaviour the spec ascribes to failures: the generator
completes having yielded exactly one textual Error item. -/
def errorOnlyYield : PipeResult → Bool
  | PipeResult.yields [OutItem.line s] => startswith s "Error: "
  | _ => false

/-- A concrete configuration used to evaluate the model on closed inputs. -/
def sampleValves : Valves :=
  { API_KEY := "k", BASE_URL := "https://api.scholarai.io/api", STREAM := true, DEBUG := false }

/-- A concrete request body selecting buffered mode. -/
def sampleBody : Dict := [("model", JVal.str "scholarai.model"), ("stream", JVal.bool false)]

/-- A concrete upstream whose response carries a 500 status in both modes. -/
def httpErrUpstream : Upstream :=
  { stream := fun _ => StreamOutcome.resp 500 [] none,
    post := fun _ => PostOutcome.resp 500 (JVal.obj []) }

/-- A concrete upstream failing with a transport error in both modes. -/
def netErrUpstream : Upstream :=
  { stream := fun _ => StreamOutcome.reqError "boom",
    post := fun _ => PostOutcome.reqError "boom" }

/-- A concrete upstream answering successfully in both modes. -/
def okUpstream : Upstream :=
  { stream := fun _ => StreamOutcome.resp 200 ["line1", "line2"] none,
    post := fun _ => PostOutcome.resp 200 (JVal.obj [("result", JVal.str "ok")]) }

/-- Bridge between the executable test and the prefix order on lists. -/
lemma isPrefixOf_eq_true_iff (l₁ l₂ : List Char) : l₁.isPrefixOf l₂ = true ↔ l₁ <+: l₂ :=
  List.isPrefixOf_iff_prefix

/-- A string extended on the right still starts with itself. -/
lemma startswith_append (a b : String) : startswith (a ++ b) a = true := by
  unfold startswith
  rw [String.data_append, isPrefixOf_eq_true_iff]
  exact List.prefix_append _ _

/-- Prepending the full marker yields a line that starts with the bare marker. -/
lemma startswith_marker (l : String) : startswith ("data: " ++ l) "data:" = true := by
  unfold startswith
  rw [String.data_append, isPrefixOf_eq_true_iff]
  exact List.IsPrefix.trans (by decide) (List.prefix_append _ _)

/-- The per-line step always produces a line starting with the bare marker. -/
lemma startswith_procLine (l : String) : startswith (procLine l) "data:" = true := by
  unfold procLine
  cases h : startswith l "data:" with
  | false => simp only [h, Bool.false_eq_true, if_false]; exact startswith_marker l
  | true => simp [h]

/-- The per-line step never produces a blank line from a non-blank one. -/
lemma blank_procLine (l : String) (hb : blank l = false) : blank (procLine l) = false := by
  unfold procLine
  cases h : startswith l "data:" with
  | false =>
    simp only [h, Bool.false_eq_true, if_false]
    unfold blank
    rw [String.data_append, List.all_append]
    have hm : ("data: ".data).all Char.isWhitespace = false := by decide
    simp [hm]
  | true => simpa [h] using hb

/-- The sentinel starts with the marker and is not blank. -/
lemma sentinel_facts : startswith "data: [DONE]" "data:" = true ∧ blank "data: [DONE]" = false := by
  decide

/-- Claim C1: on any finite input line sequence the normalizer emits, in input
order, exactly the non-blank lines, each kept unchanged when it already starts
with the marker and prefixed with the marker otherwise, followed by exactly one
final sentinel line; for the empty input the output is exactly the sentinel. -/
theorem claim_C1_normalizer_shape (ls : List String) :
    add_prefix ls =
      (ls.filter (fun l => !blank l)).map
        (fun l => if startswith l "data:" then l else "data: " ++ l)
      ++ ["data: [DONE]"] := by
  induction ls with
  | nil => rfl
  | cons l ls ih =>
    cases hb : blank l with
    | false => simp [ add_prefix, procLine, hb, ih, List.filter_cons]
    | true => simp [ add_prefix, hb, ih, List.filter_cons]

/-- Claim C2 counterexample: the input line data:x (no space after the colon)
survives unchanged, so the output contains a non-sentinel line that does not
start with the marker-plus-space string. -/
theorem claim_C2_counterexample :
    add_prefix ["data:x"] = ["data:x", "data: [DONE]"] ∧
      startswith "data:x" "data: " = false ∧ "data:x" ≠ "data: [DONE]" := by
  refine ⟨rfl, by decide, by decide⟩

/-- Claim C2 (amended): every line of the normalizer output, the sentinel
included, starts with the bare marker data: (a trailing space is not
guaranteed, since an input already carrying the bare marker passes through
unchanged), and no output line is empty or whitespace-only. -/
theorem claim_C2_amended (ls : List String) (o : String) (ho : o ∈ add_prefix ls) :
    startswith o "data:" = true ∧ blank o = false := by
  induction ls with
  | nil =>
    simp only [ add_prefix, List.mem_singleton] at ho
    subst ho
    exact sentinel_facts
  | cons l ls ih =>
    cases hb : blank l with
    | false =>
      simp only [ add_prefix, hb, Bool.false_eq_true, if_false, List.mem_cons] at ho
      cases ho with
      | inl h => subst h; exact ⟨startswith_procLine l, blank_procLine l hb⟩
      | inr h => exact ih h
    | true =>
      simp only [ add_prefix, hb, if_true] at ho
      exact ih ho

/-- Claim C2 witness: a concrete instantiation of the amended claim. -/
theorem claim_C2_witness :
    startswith "data: x" "data:" = true ∧ blank "data: x" = false :=
  claim_C2_amended ["x"] "data: x" (by decide)

/-- Claim C3 counterexample: an input line that itself begins with a doubled
marker passes through unchanged, so an output line can begin with the doubled
marker data: data:. -/
theorem claim_C3_counterexample :
    add_prefix ["data: data: x"] = ["data: data: x", "data: [DONE]"] ∧
      startswith "data: data: x" "data: data:" = true := by
  refine ⟨rfl, by decide⟩

/-- Claim C3 (amended): the per-line step is idempotent, emitting a line that
already starts with data: unchanged; and it creates no doubled marker, for an
output line begins with data: data: only when it equals the input line, which
already began that way. -/
theorem claim_C3_amended (l : String) :
    (startswith l "data:" = true → procLine l = l) ∧
    (startswith (procLine l) "data: data:" = true → procLine l = l) := by
  constructor
  · intro h
    unfold procLine
    simp [h]
  · intro h
    cases hs : startswith l "data:" with
    | true =>
      unfold procLine
      simp [hs]
    | false =>
      exfalso
      unfold procLine at h
      simp only [hs, Bool.false_eq_true, if_false] at h
      unfold startswith at h
      rw [String.data_append, isPrefixOf_eq_true_iff] at h
      have hd : ("data: data:".data) = "data: ".data ++ "data:".data := by decide
      rw [hd] at h
      have h2 := (List.prefix_append_right_inj _).mp h
      have h3 : startswith l "data:" = true := by
        unfold startswith
        rw [isPrefixOf_eq_true_iff]
        exact h2
      rw [hs] at h3
      exact Bool.false_ne_true h3

/-- Claim C3 witness: a concrete instantiation of the amended claim. -/
theorem claim_C3_witness : procLine "data: hi" = "data: hi" :=
  (claim_C3_amended "data: hi").1 (by decide)

/-- A character list without the needle has no found index. -/
lemma findCharIdx_eq_none (l : List Char) (c : Char) (h : ∀ a ∈ l, a ≠ c) :
    findCharIdx l c = none := by
  induction l with
  | nil => rfl
  | cons a as ih =>
    unfold findCharIdx
    rw [if_neg (h a (by simp))]
    rw [ih (fun x hx => h x (by simp [hx]))]
    rfl

/-- The found index of the needle placed after a needle-free prefix segment is
the length of that segment. -/
lemma findCharIdx_split (pre post : List Char) (c : Char) (h : ∀ a ∈ pre, a ≠ c) :
    findCharIdx (pre ++ c :: post) c = some pre.length := by
  induction pre with
  | nil => simp [findCharIdx]
  | cons a as ih =>
    have ha : a ≠ c := h a (by simp)
    have ih2 := ih (fun x hx => h x (by simp [hx]))
    simp [findCharIdx, ha, ih2]

/-- Dropping one past a segment of the stated length removes the segment and
the following element. -/
lemma drop_split (pre post : List Char) (c : Char) :
    (pre ++ c :: post).drop (pre.length + 1) = post := by
  simp [List.drop_append]

/-- Rebuilding a string from its character data is the identity. -/
lemma mk_data (s : String) : String.mk s.data = s := rfl

/-- Claim C4: the request builder rewrites the model field to the suffix after
the first dot, and leaves a dot-free model name unchanged. -/
theorem claim_C4_model_rewrite (s : String) :
    ((∀ a ∈ s.data, a ≠ '.') → rewriteModel s = s) ∧
    (∀ pre post : List Char, (∀ a ∈ pre, a ≠ '.') → s.data = pre ++ '.' :: post →
      rewriteModel s = String.mk post) := by
  constructor
  · intro h
    unfold rewriteModel pyFind
    rw [findCharIdx_eq_none s.data '.' h]
    show String.mk (s.data.drop ((-1 : Int) + 1).toNat) = s
    norm_num
  · intro pre post hpre hdat
    unfold rewriteModel pyFind
    rw [hdat, findCharIdx_split pre post '.' hpre]
    show String.mk ((pre ++ '.' :: post).drop ((pre.length : Int) + 1).toNat) = String.mk post
    have ht : ((pre.length : Int) + 1).toNat = pre.length + 1 := by omega
    rw [ht, drop_split]

/-- Claim C4 witness: the dotted name ns.model rewrites to model and the
dot-free name nodots is unchanged. -/
theorem claim_C4_witness :
    rewriteModel "ns.model" = "model" ∧ rewriteModel "nodots" = "nodots" := by
  constructor
  · exact (claim_C4_model_rewrite "ns.model").2 ['n', 's'] ['m', 'o', 'd', 'e', 'l']
      (by decide) (by decide)
  · exact (claim_C4_model_rewrite "nodots").1 (by decide)

/-- Replacing the bindings of one key leaves lookups of other keys unchanged. -/
lemma dlookup_replace_ne (d : Dict) (k : String) (v : JVal) (q : String) (hq : q ≠ k) :
    dlookup (d.map (fun p => (p.1, if p.1 = k then v else p.2))) q = dlookup d q := by
  induction d with
  | nil => rfl
  | cons p d ih =>
    obtain ⟨k₁, v₁⟩ := p
    by_cases h2 : k₁ = q
    · subst h2
      simp [dlookup, hq]
    · simp [dlookup, h2, ih]

/-- Appending a binding for one key leaves lookups of other keys unchanged. -/
lemma dlookup_append_ne (d : Dict) (k : String) (v : JVal) (q : String) (hq : q ≠ k) :
    dlookup (d ++ [(k, v)]) q = dlookup d q := by
  induction d with
  | nil => simp [dlookup, Ne.symm hq]
  | cons p d ih =>
    obtain ⟨k₁, v₁⟩ := p
    simp [dlookup, ih]

/-- When the key occurs, replacing its bindings makes its lookup the new value. -/
lemma dlookup_replace_eq (d : Dict) (k : String) (v : JVal) (hmem : keyMem d k = true) :
    dlookup (d.map (fun p => (p.1, if p.1 = k then v else p.2))) k = some v := by
  induction d with
  | nil => simp [keyMem] at hmem
  | cons p d ih =>
    obtain ⟨k₁, v₁⟩ := p
    by_cases h1 : k₁ = k
    · subst h1
      simp [dlookup]
    · simp only [keyMem, List.any_cons, Bool.or_eq_true, decide_eq_true_eq] at hmem
      rcases hmem with h | h
      · exact absurd h h1
      · simp [dlookup, h1, ih (by simpa [keyMem] using h)]

/-- When the key is absent, looking it up after appending finds the new value. -/
lemma dlookup_append_eq (d : Dict) (k : String) (v : JVal) (hmem : keyMem d k = false) :
    dlookup (d ++ [(k, v)]) k = some v := by
  induction d with
  | nil => simp [dlookup]
  | cons p d ih =>
    obtain ⟨k₁, v₁⟩ := p
    simp only [keyMem, List.any_cons, Bool.or_eq_false_iff, decide_eq_false_iff_not] at hmem
    simp [dlookup, hmem.1, ih (by simpa [keyMem] using hmem.2)]

/-- Replacing the bindings of one key keeps the key sequence of the dict. -/
lemma keys_replace (d : Dict) (k : String) (v : JVal) :
    (d.map (fun p => (p.1, if p.1 = k then v else p.2))).map Prod.fst = d.map Prod.fst := by
  induction d with
  | nil => rfl
  | cons p d ih =>
    simp [ih]

/-- Claim C5: the outbound payload agrees with the inbound body on every key
other than model, the model key ends up bound to the rewritten model id, and
when the body already has a model key no key is added or removed and the key
order is kept. -/
theorem claim_C5_payload_frame (body : Dict) (m : String) :
    (∀ q, q ≠ "model" → dlookup (buildPayload body m) q = dlookup body q) ∧
    dlookup (buildPayload body m) "model" = some (JVal.str (rewriteModel m)) ∧
    (keyMem body "model" = true →
      (buildPayload body m).map Prod.fst = body.map Prod.fst) := by
  unfold buildPayload setKey
  cases hmem : keyMem body "model" with
  | true =>
    simp only [if_pos rfl, if_true]
    refine ⟨?_, ?_, ?_⟩
    · intro q hq
      exact dlookup_replace_ne body "model" _ q hq
    · exact dlookup_replace_eq body "model" _ hmem
    · intro _
      exact keys_replace body "model" _
  | false =>
    simp only [Bool.false_eq_true, if_false]
    refine ⟨?_, ?_, ?_⟩
    · intro q hq
      exact dlookup_append_ne body "model" _ q hq
    · exact dlookup_append_eq body "model" _ hmem
    · intro h
      exact absurd h (by simp)

/-- Claim C5 witness: a concrete instantiation, with an unknown field x passing
through verbatim and the key order kept. -/
theorem claim_C5_witness :
    dlookup (buildPayload [("model", JVal.str "a.b"), ("x", JVal.num 3)] "a.b") "x" =
      dlookup [("model", JVal.str "a.b"), ("x", JVal.num 3)] "x" ∧
    (buildPayload [("model", JVal.str "a.b"), ("x", JVal.num 3)] "a.b").map Prod.fst =
      ([("model", JVal.str "a.b"), ("x", JVal.num 3)] : Dict).map Prod.fst :=
  ⟨(claim_C5_payload_frame [("model", JVal.str "a.b"), ("x", JVal.num 3)] "a.b").1
      "x" (by decide),
   (claim_C5_payload_frame [("model", JVal.str "a.b"), ("x", JVal.num 3)] "a.b").2.2
      (by decide)⟩

/-- An Error item text is never the sentinel line. -/
lemma errorLine_ne_sentinel (msg : String) : ("Error: " ++ msg) ≠ "data: [DONE]" := by
  intro hEq
  have h1 : ("Error: " ++ msg).data = "data: [DONE]".data := congrArg String.data hEq
  rw [String.data_append] at h1
  have h2 : ('E' :: "rror: ".data) ++ msg.data = 'd' :: "ata: [DONE]".data := h1
  have h4 := congrArg List.head? h2
  simp at h4

/-- Claim C6 counterexample: with an upstream returning a 500 status in
buffered mode, the pipe does not complete with a single Error item: the
HTTPStatusError raised by raise_for_status is not an httpx.RequestError, so it
escapes the except clause uncaught, with no output item at all. -/
theorem claim_C6_counterexample :
    pipe sampleValves sampleBody [] httpErrUpstream
        = PipeResult.raises [] (PyExc.httpStatusError 500) ∧
      errorOnlyYield (pipe sampleValves sampleBody [] httpErrUpstream) = false :=
  ⟨rfl, rfl⟩

/-- Claim C6 (amended): a non-2xx upstream status makes raise_for_status throw
an httpx.HTTPStatusError, which the except httpx.RequestError clause does not
catch: in both modes the pipe raises it with no output item, so an HTTP status
error is distinguished from a transport error instead of collapsing to the
same Error item. -/
theorem claim_C6_status_error (valves : Valves) (body user : Dict) (up : Upstream)
    (m : String) (code : Nat) (lines : List String) (tl : Option String) (b : JVal)
    (hm : dlookup body "model" = some (JVal.str m))
    (hcode : statusSuccess code = false) :
    (jTruthy (dget body "stream" (JVal.bool valves.STREAM)) = true →
      up.stream (buildPayload body m) = StreamOutcome.resp code lines tl →
      pipe valves body user up = PipeResult.raises [] (PyExc.httpStatusError code)) ∧
    (jTruthy (dget body "stream" (JVal.bool valves.STREAM)) = false →
      up.post (buildPayload body m) = PostOutcome.resp code b →
      pipe valves body user up = PipeResult.raises [] (PyExc.httpStatusError code)) ∧
    (∀ items, PipeResult.raises [] (PyExc.httpStatusError code) ≠ PipeResult.yields items) := by
  refine ⟨?_, ?_, ?_⟩
  · intro hs hup
    simp [pipe, hm, hs, hup, hcode]
  · intro hs hup
    simp [pipe, hm, hs, hup, hcode]
  · intro items h
    exact PipeResult.noConfusion h

/-- Claim C6 witness: the amended claim evaluated at a concrete 500 response. -/
theorem claim_C6_witness :
    pipe sampleValves sampleBody [] httpErrUpstream
      = PipeResult.raises [] (PyExc.httpStatusError 500) :=
  (claim_C6_status_error sampleValves sampleBody [] httpErrUpstream "scholarai.model" 500
      [] none (JVal.obj []) rfl rfl).2.1 rfl rfl

/-- Claim C7: a transport failure raised before any line is consumed yields, in
either mode, exactly one item, the Error text followed by the failure message;
the sequence ends there, the single item starts with the Error marker, and the
sentinel line is never emitted. -/
theorem claim_C7_transport_error (valves : Valves) (body user : Dict) (up : Upstream)
    (m msg : String)
    (hm : dlookup body "model" = some (JVal.str m)) :
    (jTruthy (dget body "stream" (JVal.bool valves.STREAM)) = true →
      up.stream (buildPayload body m) = StreamOutcome.reqError msg →
      pipe valves body user up = PipeResult.yields [OutItem.line ("Error: " ++ msg)]) ∧
    (jTruthy (dget body "stream" (JVal.bool valves.STREAM)) = false →
      up.post (buildPayload body m) = PostOutcome.reqError msg →
      pipe valves body user up = PipeResult.yields [OutItem.line ("Error: " ++ msg)]) ∧
    startswith ("Error: " ++ msg) "Error: " = true ∧
    ("Error: " ++ msg) ≠ "data: [DONE]" := by
  refine ⟨?_, ?_, startswith_append "Error: " msg, errorLine_ne_sentinel msg⟩
  · intro hs hup
    simp [pipe, hm, hs, hup]
  · intro hs hup
    simp [pipe, hm, hs, hup]

/-- Claim C7 witness: the claim evaluated at a concrete transport failure in
buffered mode. -/
theorem claim_C7_witness :
    pipe sampleValves sampleBody [] netErrUpstream
      = PipeResult.yields [OutItem.line ("Error: " ++ "boom")] :=
  (claim_C7_transport_error sampleValves sampleBody [] netErrUpstream "scholarai.model"
      "boom" rfl).2.1 rfl rfl

/-- Claim C8: in buffered mode a successful exchange yields exactly one item,
the decoded JSON body, structurally unchanged, with no sentinel or other item. -/
theorem claim_C8_nonstreaming (valves : Valves) (body user : Dict) (up : Upstream)
    (m : String) (code : Nat) (b : JVal)
    (hm : dlookup body "model" = some (JVal.str m))
    (hs : jTruthy (dget body "stream" (JVal.bool valves.STREAM)) = false)
    (hup : up.post (buildPayload body m) = PostOutcome.resp code b)
    (hcode : statusSuccess code = true) :
    pipe valves body user up = PipeResult.yields [OutItem.json b] := by
  simp [pipe, hm, hs, hup, hcode]

/-- Claim C8 witness: the claim evaluated at a concrete successful buffered
exchange. -/
theorem claim_C8_witness :
    pipe sampleValves sampleBody [] okUpstream
      = PipeResult.yields [OutItem.json (JVal.obj [("result", JVal.str "ok")])] :=
  claim_C8_nonstreaming sampleValves sampleBody [] okUpstream "scholarai.model" 200
    (JVal.obj [("result", JVal.str "ok")]) rfl rfl rfl rfl

/-- Claim C9: the caller identity argument has no influence on the output: two
invocations agreeing on configuration, body, and upstream behaviour but with
arbitrarily different caller identity mappings produce identical results. -/
theorem claim_C9_user_noninterference (valves : Valves) (body u₁ u₂ : Dict) (up : Upstream) :
    pipe valves body u₁ up = pipe valves body u₂ up := rfl

/-- Claim C10: a body without a model key makes the pipe raise KeyError having
yielded no item, with a result independent of the upstream behaviour, so the
failure precedes any HTTP request and any output. -/
theorem claim_C10_missing_model (valves : Valves) (body user : Dict) (up up' : Upstream)
    (h : dlookup body "model" = none) :
    pipe valves body user up = PipeResult.raises [] (PyExc.keyError "model") ∧
    pipe valves body user up = pipe valves body user up' := by
  constructor
  · simp [pipe, h]
  · simp [pipe, h]

/-- Claim C10 witness: the claim evaluated at a concrete body lacking model. -/
theorem claim_C10_witness :
    pipe sampleValves [("stream", JVal.bool true)] [] httpErrUpstream
      = PipeResult.raises [] (PyExc.keyError "model") :=
  (claim_C10_missing_model sampleValves [("stream", JVal.bool true)] [] httpErrUpstream
      netErrUpstream rfl).1

end ScholarAI
